import Mathlib

/-!
Verification of the exercise repository: the twelve-days song printer,
the temperature conversion pair, and the coin counting routine.

Console output is modelled as a pure list of lines; a Rust index
expression that could panic out of bounds is modelled with
`List.get?`, so a whole routine returns `Option (List String)` and
`some` means the routine completes without a panic.
-/

namespace TwelveDays

def TOTAL_DAYS : Nat := 12

def DAYS : List String :=
  ["first", "second", "third", "fourth", "fifth", "sixth",
   "seventh", "eighth", "ninth", "tenth", "eleventh", "twelfth"]

def LYRICS : List String :=
  ["A partridge in a pear tree",
   "Two turtle doves and",
   "Three french hens",
   "Four calling birds",
   "Five golden rings",
   "Six geese a-laying",
   "Seven swans a-swimming",
   "Eight maids a-milking",
   "Nine ladies dancing",
   "Ten lords a-leaping",
   "Eleven pipers piping",
   "Twelve drummers drumming"]

/-- Lines emitted by the Rust function `print_first_verse_line day`:
a single header line interpolating `DAYS[day]`. -/
def print_first_verse_line (day : Nat) : Option (List String) :=
  (DAYS.get? day).map fun d =>
    ["On the " ++ d ++ " day of Christmas my true love sent to me"]

/-- Lines emitted by the Rust function `print_lyrics day`:
`LYRICS[line]` for `line` in `(0..=day).rev()`. -/
def print_lyrics (day : Nat) : Option (List String) :=
  (List.range (day + 1)).reverse.mapM fun line => LYRICS.get? line

/-- Full output of the Rust `main`: the title line, the ruler line, then
for each day a blank line, the header, and the descending lyrics. -/
def main_output : Option (List String) := do
  let days ← (List.range TOTAL_DAYS).mapM fun day => do
    let header ← print_first_verse_line day
    let verse ← print_lyrics day
    pure (([""] ++ header) ++ verse)
  pure (["The Twelve Days of Christmas",
         "----------------------------"] ++ days.flatten)

/-- The day block of the specification: one blank separator line, the
header line, then the descending verse lines. -/
def day_block (day : Nat) : Option (List String) := do
  let header ← print_first_verse_line day
  let verse ← print_lyrics day
  pure (([""] ++ header) ++ verse)

/-- All day blocks in ascending day order. -/
def day_blocks : Option (List (List String)) :=
  (List.range TOTAL_DAYS).mapM day_block

/-- Output of invoking the printer routine twice in sequence within one
process, the second invocation appending to the lines already emitted. -/
def run_twice : Option (List String) := do
  let first_run ← main_output
  let second_run ← main_output
  pure (first_run ++ second_run)

end TwelveDays

namespace Temperature

/-- The Rust function `fahrenheit_to_celsius_v1`, written with an
explicit return statement. -/
def fahrenheit_to_celsius_v1 (temperature : Float) : Float :=
  (temperature - 32.0) * (5.0 / 9.0)

/-- The Rust function `fahrenheit_to_celsius_v2`, written as a tail
expression. -/
def fahrenheit_to_celsius_v2 (temperature : Float) : Float :=
  (temperature - 32.0) * (5.0 / 9.0)

end Temperature

namespace Coins

inductive UsState where
  | Alabama
  | Alaska
deriving DecidableEq, Repr

/-- Debug formatting of a `UsState`, as produced by the derived Debug
instance in the Rust source. -/
def UsState.debug : UsState → String
  | .Alabama => "Alabama"
  | .Alaska => "Alaska"

inductive Coin where
  | Penny
  | Nickel
  | Dime
  | Quarter (state : UsState)
deriving DecidableEq

/-- True exactly on the `Quarter` variant. -/
def Coin.isQuarter : Coin → Bool
  | .Quarter _ => true
  | _ => false

/-- The fixed five element coin list built in the Rust `main`. -/
def coins : List Coin :=
  [.Penny, .Nickel, .Quarter .Alabama, .Dime, .Quarter .Alaska]

/-- One iteration of the loop body in the Rust `main`: a quarter prints
its state annotation, any other coin increments the count. -/
def coin_step : Nat × List String → Coin → Nat × List String
  | (count, out), Coin.Quarter state =>
      (count, out ++ ["State quarter from " ++ state.debug ++ "!"])
  | (count, out), _ => (count + 1, out)

/-- Full output of the Rust `main` of the coin exercise: the loop over
`coins` followed by the final count line. -/
def coins_main : List String :=
  let r := coins.foldl coin_step (0, [])
  r.2 ++ ["Number of non-quarter coins: " ++ toString r.1]

end Coins

namespace TwelveDays

/-- C1: for every day index i below TOTAL_DAYS, the verse block emitted
for day i is exactly the lines LYRICS at i, i-1, ..., 0 in that strictly
descending index order, hence exactly i+1 lines; day 0 emits exactly
LYRICS at 0 and day TOTAL_DAYS-1 emits all TOTAL_DAYS lines. -/
theorem print_lyrics_descending (i : Nat) (h : i < TOTAL_DAYS) :
    print_lyrics i =
      some ((List.range (i + 1)).reverse.map fun j => LYRICS.getD j "") ∧
    (print_lyrics i).map List.length = some (i + 1) := by
  revert i h; decide

/-- Witness for C1 at the last day, i = 11. -/
theorem print_lyrics_descending_witness :
    print_lyrics 11 =
      some ((List.range 12).reverse.map fun j => LYRICS.getD j "") ∧
    (print_lyrics 11).map List.length = some 12 :=
  print_lyrics_descending 11 (by decide)

/-- C2: for every day index i below TOTAL_DAYS, the header line emitted
for day i is exactly the fixed template around the day label DAYS at i,
with the subject word Christmas a literal constant. -/
theorem header_line_correct (i : Nat) (h : i < TOTAL_DAYS) :
    print_first_verse_line i =
      some ["On the " ++ DAYS.getD i "" ++
            " day of Christmas my true love sent to me"] := by
  revert i h; decide

/-- Witness for C2 at the first day, i = 0. -/
theorem header_line_correct_witness :
    print_first_verse_line 0 =
      some ["On the " ++ DAYS.getD 0 "" ++
            " day of Christmas my true love sent to me"] :=
  header_line_correct 0 (by decide)

set_option maxRecDepth 4000 in
/-- C3: the output contains exactly TOTAL_DAYS day blocks in strictly
ascending day order, every block, the first included, opens with exactly
one blank separator line and holds no other blank line, and the whole
output is the title lines followed by the blocks in order. -/
theorem day_blocks_separated :
    day_blocks.map List.length = some TOTAL_DAYS ∧
    ((List.range TOTAL_DAYS).all fun i =>
      (day_blocks.getD []).get? i == day_block i) ∧
    ((day_blocks.getD []).all fun b =>
      (b.head? == some "") && (b.count "" == 1)) ∧
    main_output = day_blocks.map fun bs =>
      ["The Twelve Days of Christmas", "----------------------------"] ++
        bs.flatten := by
  decide

set_option maxRecDepth 4000 in
/-- Counterexample to C4 as stated: the emitted text is not precisely
the concatenation of the day blocks, since the title line and the ruler
line come first. -/
theorem main_output_not_blocks_only :
    main_output ≠ day_blocks.map List.flatten := by decide

set_option maxRecDepth 4000 in
/-- C4 amended: the emitted text is fully determined by the static
tables and the block algorithm, being exactly the title line and the
ruler line followed by the concatenation of the TOTAL_DAYS day blocks,
with no other lines. -/
theorem main_output_determined :
    day_blocks.isSome ∧
    main_output = day_blocks.map fun bs =>
      ["The Twelve Days of Christmas", "----------------------------"] ++
        bs.flatten := by
  decide

set_option maxRecDepth 4000 in
/-- C5: invoking the printer twice in sequence emits exactly the single
invocation output repeated twice identically; the embedded routine is a
pure function of the constant tables, so no state crosses invocations. -/
theorem run_twice_repeats :
    run_twice = main_output.bind fun out => some (out ++ out) := by decide

/-- C6: the DAYS table and the LYRICS table both have length
TOTAL_DAYS = 12; both are constant definitions, never rebuilt or
mutated, so the shared length invariant holds throughout. -/
theorem tables_same_length :
    DAYS.length = TOTAL_DAYS ∧ LYRICS.length = TOTAL_DAYS := by decide

/-- C7: for every day below TOTAL_DAYS every array access of the loop is
in bounds: DAYS at day and LYRICS at every line up to day are all some,
so both helpers and the whole entry point complete without a panic. -/
theorem no_panic (day : Nat) (hd : day < TOTAL_DAYS) :
    (DAYS.get? day).isSome ∧
    ((List.range (day + 1)).all fun line => (LYRICS.get? line).isSome) ∧
    (print_first_verse_line day).isSome ∧ (print_lyrics day).isSome ∧
    main_output.isSome := by
  revert day hd; decide

/-- Witness for C7 at the last day, day = 11. -/
theorem no_panic_witness :
    (DAYS.get? 11).isSome ∧
    ((List.range 12).all fun line => (LYRICS.get? line).isSome) ∧
    (print_first_verse_line 11).isSome ∧ (print_lyrics 11).isSome ∧
    main_output.isSome :=
  no_panic 11 (by decide)

set_option maxRecDepth 4000 in
/-- C10: the entry point emits the title line and the ruler line before
the first blank separator and the first day block. -/
theorem title_lines_before_blocks :
    main_output = day_blocks.map (fun bs =>
      "The Twelve Days of Christmas" :: "----------------------------" ::
        bs.flatten) ∧
    (main_output.getD []).take 2 =
      ["The Twelve Days of Christmas", "----------------------------"] := by
  decide

end TwelveDays

namespace Temperature

/-- C8: the two conversion functions agree on every input and both
compute (t - 32.0) * (5.0 / 9.0); their bodies are the same expression,
differing only in surface syntax. -/
theorem conversion_functions_equal (t : Float) :
    fahrenheit_to_celsius_v1 t = fahrenheit_to_celsius_v2 t ∧
    fahrenheit_to_celsius_v1 t = (t - 32.0) * (5.0 / 9.0) :=
  ⟨rfl, rfl⟩

end Temperature

namespace Coins

/-- C9: the coin loop prints one state annotation line per Quarter in
list order and increments the count once per coin of any other variant,
so the final count equals the number of non quarter coins, namely 3 for
the fixed five coin list. -/
theorem coin_count_correct :
    coins_main = ["State quarter from Alabama!", "State quarter from Alaska!",
                  "Number of non-quarter coins: 3"] ∧
    (coins.foldl coin_step (0, [])).1 =
      (coins.filter fun c => !c.isQuarter).length ∧
    (coins.foldl coin_step (0, [])).2 =
      (coins.filterMap fun c => match c with
        | Coin.Quarter s => some ("State quarter from " ++ s.debug ++ "!")
        | _ => none) := by
  decide

end Coins
